import Mathlib

/-!
Verification of the two CLI scripts in this repository against their
natural-language specification.

Program A is `bin/transcribe_youtube.py` (YouTube audio download and
transcription); Program B is `pdf_to_audiobook.py` (PDF/TXT to audiobook).
Strings are modelled as `List Char`.  External effects (file system,
subprocesses, HTTP requests, stdin) are modelled as oracles supplied in a
`World` structure; every function below is a direct transcription of the
corresponding Python function's control flow.
-/

namespace CliTools

/-! ## Program A: filename sanitization (`safe_title`, transcribe_youtube.py lines 35-45) -/

/-- Python `str.replace(old, new)` for single-character `old`/`new` is a
character-wise map. -/
def replaceChar (old new : Char) (s : List Char) : List Char :=
  s.map (fun c => if c = old then new else c)

/-- The chained `.replace` calls of transcribe_youtube.py lines 35-45,
in source order: `/ \ : * ? " < > |` each replaced by `_`. -/
def safe_title (title : List Char) : List Char :=
  replaceChar '|' '_'
    (replaceChar '>' '_'
      (replaceChar '<' '_'
        (replaceChar '"' '_'
          (replaceChar '?' '_'
            (replaceChar '*' '_'
              (replaceChar ':' '_'
                (replaceChar '\\' '_'
                  (replaceChar '/' '_' title))))))))

/-- The fixed set of forbidden filename characters from the source. -/
def forbiddenChars : List Char := ['/', '\\', ':', '*', '?', '"', '<', '>', '|']

/-- The spec's description of sanitization: each forbidden character becomes
an underscore, all others are kept. -/
def sanitizeSpec (c : Char) : Char :=
  if c ∈ forbiddenChars then '_' else c

/-! ## Program B: configuration constants (pdf_to_audiobook.py lines 14-15) -/

def PRIMARY_SERVER : List Char :=
  ['1','9','2','.','1','6','8','.','2','0','.','9',':','8','8','8','0']

def FALLBACK_SERVER : List Char :=
  ['l','o','c','a','l','h','o','s','t',':','8','8','8','0']

/-! ## Language selection and voice lookup (lines 19-28) -/

def enCode : List Char := ['e', 'n']
def esCode : List Char := ['e', 's']
def voiceEs : List Char := ['e','f','_','d','o','r','a']
def voiceDefault : List Char := ['a','f','_','h','e','a','r','t']

/-- `select_language` (lines 19-24): loop reading stdin, lowercasing, until the
input is `en` or `es`.  The stdin stream is a finite list of lines; `none`
means the loop consumed the whole stream without returning (the real loop
would keep prompting forever). -/
def select_language : List (List Char) → Option (List Char)
  | [] => none
  | i :: rest =>
    let lang_input := i.map Char.toLower
    if lang_input = enCode ∨ lang_input = esCode then some lang_input
    else select_language rest

/-- `get_voice` (lines 26-28). -/
def get_voice (language : List Char) : List Char :=
  if language = esCode then voiceEs else voiceDefault

/-! ## Path handling: `os.path.basename` and `os.path.splitext` (posix) -/

/-- `os.path.basename` on posix: everything after the last `/`. -/
def basename (p : List Char) : List Char :=
  (p.reverse.takeWhile (fun c => c ≠ '/')).reverse

/-- `os.path.splitext` restricted to a path component with no separator
(CPython `genericpath._splitext`): split at the last dot, unless every
character before that dot is itself a dot (then there is no extension). -/
def splitextBase (b : List Char) : List Char × List Char :=
  match b.reverse.findIdx? (fun x => x = '.') with
  | none => (b, [])
  | some i =>
    let d := b.length - 1 - i
    if (b.take d).all (fun x => x = '.') then (b, [])
    else (b.take d, b.drop d)

/-- `os.path.splitext` on a full posix path.  CPython compares the index of
the last dot with the index of the last separator and scans the characters
between them for a non-dot; this is equivalent to applying the
basename-level split to the basename and re-attaching the directory part. -/
def splitext (p : List Char) : List Char × List Char :=
  let b := basename p
  let dir := p.take (p.length - b.length)
  (dir ++ (splitextBase b).1, (splitextBase b).2)

/-! ## TTS request/response model (`generate_audiobook`, lines 90-139) -/

structure Payload where
  input : List Char
  model : List Char
  voice : List Char
  response_format : List Char
deriving DecidableEq, Repr

structure Request where
  server : List Char
  path : List Char
  headers : List (List Char × List Char)
  payload : Payload
deriving DecidableEq, Repr

/-- The JSON payload built at lines 93-98. -/
def tts_payload (script_content voice : List Char) : Payload :=
  { input := script_content
    model := ['k','o','k','o','r','o']
    voice := voice
    response_format := ['m','p','3'] }

/-- The `Content-Type: application/json` header (line 99). -/
def tts_headers : List (List Char × List Char) :=
  [(['C','o','n','t','e','n','t','-','T','y','p','e'],
    ['a','p','p','l','i','c','a','t','i','o','n','/','j','s','o','n'])]

/-- The endpoint path used for both servers (lines 105 and 124). -/
def speechPath : List Char :=
  ['/','v','1','/','a','u','d','i','o','/','s','p','e','e','c','h']

/-- The request posted against a given server: same path, headers and
payload for primary and fallback. -/
def ttsRequest (server script_content voice : List Char) : Request :=
  { server := server
    path := speechPath
    headers := tts_headers
    payload := tts_payload script_content voice }

/-- Outcome of one `requests.post(..., stream=True)` attempt.
`requestError` is a `RequestException` raised by `post` itself (timeout,
connection error); `httpError` is a non-success status, raised by
`raise_for_status`; `midStreamError` is a `RequestException` raised by
`iter_content` after the listed chunks were already written to the opened
file; `success` streams all chunks to the file. -/
inductive AttemptOutcome where
  | requestError
  | httpError
  | midStreamError (written : List (List Char))
  | success (chunks : List (List Char))
deriving DecidableEq, Repr

/-- Whether the attempt raises a `requests.exceptions.RequestException`
(all three failure forms are caught by the `except` clauses at lines 117
and 136). -/
def AttemptOutcome.isFailure : AttemptOutcome → Bool
  | .success _ => false
  | _ => true

/-- Whether a failing attempt fails before the response body is consumed,
i.e. before `open(output_path, 'wb')` is reached. -/
def AttemptOutcome.failsBeforeBody : AttemptOutcome → Bool
  | .requestError => true
  | .httpError => true
  | _ => false

/-- State of the file at `output_path`. `open(output_path, 'wb')` truncates,
so each attempt that reaches the body replaces the previous contents. -/
inductive FileState where
  | untouched
  | incomplete (data : List Char)
  | complete (data : List Char)
deriving DecidableEq, Repr

/-- Effect of one attempt on the output file, given the state it found.
A failure before the body (`requestError`/`httpError`) never opens the
file; a mid-stream failure or a success opens (truncating) and writes. -/
def attemptFile : AttemptOutcome → FileState → FileState
  | .requestError, fs => fs
  | .httpError, fs => fs
  | .midStreamError w, _ => .incomplete w.flatten
  | .success c, _ => .complete c.flatten

structure TTSResult where
  ok : Bool
  fileState : FileState
  requests : List Request
deriving DecidableEq, Repr

/-- `generate_audiobook` (lines 90-139): one attempt against the primary
server; on any `RequestException` the identical request against the
fallback server; `True` on the first full success, `False` when both
attempts fail. -/
def generate_audiobook (script_content voice : List Char)
    (primary fallback : AttemptOutcome) : TTSResult :=
  let req1 := ttsRequest PRIMARY_SERVER script_content voice
  match primary with
  | .success c => { ok := true, fileState := .complete c.flatten, requests := [req1] }
  | pfail =>
    let fs1 := attemptFile pfail .untouched
    let req2 := ttsRequest FALLBACK_SERVER script_content voice
    match fallback with
    | .success c =>
      { ok := true, fileState := .complete c.flatten, requests := [req1, req2] }
    | ffail =>
      { ok := false, fileState := attemptFile ffail fs1, requests := [req1, req2] }

/-! ## Gemini formatting (`format_text_with_gemini`, lines 44-87) -/

/-- Outcome of the Gemini API call: a parsed script text, a
`RequestException`, or a response that fails to parse (`KeyError` /
`IndexError`). -/
inductive GeminiApiOutcome where
  | apiSuccess (script : List Char)
  | requestError
  | parseError
deriving DecidableEq, Repr

/-- `format_text_with_gemini` control flow: `None` when the API key is
missing, the raw text file is unreadable, the request fails, the response
fails to parse, or the parsed script is empty; otherwise the script. -/
def format_text_with_gemini (key : Option (List Char))
    (raw_text : Option (List Char)) (api : GeminiApiOutcome) :
    Option (List Char) :=
  match key with
  | none => none
  | some _ =>
    match raw_text with
    | none => none
    | some _ =>
      match api with
      | .apiSuccess s => if s = [] then none else some s
      | .requestError => none
      | .parseError => none

/-! ## `main` (lines 141-201) -/

/-- Outcome of `subprocess.run(["pdftotext", ...], check=True)`
(`convert_pdf_to_text`, lines 30-42). -/
inductive PdftotextOutcome where
  | ok
  | toolNotFound
  | processError
deriving DecidableEq, Repr

/-- The oracles `main` consults: file existence, file reads, the pdftotext
subprocess, the Gemini API, the two TTS attempts, and stdin lines. -/
structure World where
  exists_file : List Char → Bool
  read_file : List Char → Option (List Char)
  pdftotext : PdftotextOutcome
  pdftotext_output : List Char
  gemini_api_key : Option (List Char)
  gemini : GeminiApiOutcome
  tts_primary : AttemptOutcome
  tts_fallback : AttemptOutcome
  stdin : List (List Char)

/-- Where (and how) a run of `main` ends.  Each constructor corresponds to
one exit site of the source; `completed` is falling off the end of `main`
after the `generate_audiobook` call at line 198 (whose return value the
source does not inspect). -/
inductive Outcome where
  | argparseError
  | fileNotFound
  | unsupportedExtension
  | divergesPrompt
  | pdftotextFailed
  | geminiFailed
  | txtReadFailed
  | emptyScript
  | completed (tts : TTSResult)
deriving DecidableEq, Repr

/-- Process exit code for each outcome: `argparse` exits 2 on a bad choice,
every explicit `sys.exit(1)` site exits 1, and reaching the end of `main`
exits 0.  `none` for the non-terminating prompt loop. -/
def exitCode : Outcome → Option Nat
  | .argparseError => some 2
  | .divergesPrompt => none
  | .completed _ => some 0
  | _ => some 1

/-- Whether `generate_audiobook` was invoked during the run. -/
def Outcome.ttsInvoked : Outcome → Bool
  | .completed _ => true
  | _ => false

/-- The `generate_audiobook` return value, when it was invoked. -/
def Outcome.ttsOk : Outcome → Option Bool
  | .completed r => some r.ok
  | _ => none

/-- `argparse` validation of the optional positional `language`
(line 148: `choices=['en', 'es']`). -/
def validLangArg : Option (List Char) → Bool
  | none => true
  | some l => l = enCode ∨ l = esCode

/-- Lines 163-164: use the CLI language if given, otherwise prompt. -/
def resolveLang : Option (List Char) → List (List Char) → Option (List Char)
  | some l, _ => some l
  | none, stdin => select_language stdin

structure RunResult where
  outcome : Outcome
  writes : List (List Char)
deriving DecidableEq, Repr

/-- Line 158: `os.path.splitext(input_file)[1].lower()`. -/
def file_extension (input_file : List Char) : List Char :=
  (splitext input_file).2.map Char.toLower

def pdfExt : List Char := ['.', 'p', 'd', 'f']
def txtExt : List Char := ['.', 't', 'x', 't']

/-- The pipeline from line 166 on, after existence, extension and language
are settled.  `writes` lists the files created, in order: the raw text file
(written by pdftotext), the processed script file (PDF path only), and the
output mp3 (whenever an attempt reached the response body). -/
def runPipeline (w : World) (input_file lang : List Char) : RunResult :=
  let voice := get_voice lang
  let stem := (splitext (basename input_file)).1
  let output_file := stem ++ ['.','m','p','3']
  if file_extension input_file = pdfExt then
    let raw_txt_file := stem ++ ['.','r','a','w','.','t','x','t']
    let processed_txt_file := stem ++ ['.','p','r','o','c','e','s','s','e','d','.','t','x','t']
    match w.pdftotext with
    | .toolNotFound => { outcome := .pdftotextFailed, writes := [] }
    | .processError => { outcome := .pdftotextFailed, writes := [] }
    | .ok =>
      match format_text_with_gemini w.gemini_api_key (some w.pdftotext_output) w.gemini with
      | none => { outcome := .geminiFailed, writes := [raw_txt_file] }
      | some script =>
        let r := generate_audiobook script voice w.tts_primary w.tts_fallback
        { outcome := .completed r
          writes := [raw_txt_file, processed_txt_file] ++
            (if r.fileState = .untouched then [] else [output_file]) }
  else
    match w.read_file input_file with
    | none => { outcome := .txtReadFailed, writes := [] }
    | some content =>
      if content = [] then { outcome := .emptyScript, writes := [] }
      else
        let r := generate_audiobook content voice w.tts_primary w.tts_fallback
        { outcome := .completed r
          writes := if r.fileState = .untouched then [] else [output_file] }

/-- `main` (lines 141-201): argparse validation, existence check (line 154),
extension dispatch (lines 158-161), language resolution (lines 163-164),
then the PDF or TXT pipeline and the TTS call. -/
def main (input_file : List Char) (language : Option (List Char)) (w : World) :
    RunResult :=
  if validLangArg language = false then { outcome := .argparseError, writes := [] }
  else if w.exists_file input_file = false then
    { outcome := .fileNotFound, writes := [] }
  else if ¬ (file_extension input_file = pdfExt ∨ file_extension input_file = txtExt) then
    { outcome := .unsupportedExtension, writes := [] }
  else
    match resolveLang language w.stdin with
    | none => { outcome := .divergesPrompt, writes := [] }
    | some lang => runPipeline w input_file lang

/-! ## Concrete worlds for evaluating `main` -/

/-- A world where every file exists and reads as `hi`, pdftotext succeeds,
the Gemini key is absent, and both TTS servers raise connection errors. -/
def bothDownWorld : World :=
  { exists_file := fun _ => true
    read_file := fun _ => some ['h','i']
    pdftotext := .ok
    pdftotext_output := ['h','i']
    gemini_api_key := none
    gemini := .requestError
    tts_primary := .requestError
    tts_fallback := .requestError
    stdin := [] }

/-- `bothDownWorld`, but both TTS attempts succeed with one chunk `ok`. -/
def ttsUpWorld : World :=
  { bothDownWorld with
    tts_primary := .success [['o','k']]
    tts_fallback := .success [['o','k']] }

/-- `ttsUpWorld` with a working Gemini call returning the script `hi`. -/
def pdfOkWorld : World :=
  { ttsUpWorld with
    gemini_api_key := some ['k']
    gemini := .apiSuccess ['h','i'] }

/-- `ttsUpWorld`, but every file read yields the empty string. -/
def emptyTxtWorld : World :=
  { ttsUpWorld with read_file := fun _ => some [] }

/-! ## Helper lemmas -/

/-- The character-level effect of the nine chained replaces equals the
single forbidden-set map. -/
theorem safe_title_eq_map (s : List Char) :
    safe_title s = s.map sanitizeSpec := by
  simp only [safe_title, replaceChar, List.map_map]
  refine List.map_congr_left (fun c _ => ?_)
  by_cases h : c ∈ forbiddenChars
  · fin_cases h <;> rfl
  · simp only [forbiddenChars, List.mem_cons, List.not_mem_nil, or_false] at h
    push_neg at h
    obtain ⟨h1, h2, h3, h4, h5, h6, h7, h8, h9⟩ := h
    simp [Function.comp, sanitizeSpec, forbiddenChars,
      h1, h2, h3, h4, h5, h6, h7, h8, h9]

/-- The sanitizing character map is idempotent ('_' is not forbidden). -/
theorem sanitizeSpec_idem (c : Char) : sanitizeSpec (sanitizeSpec c) = sanitizeSpec c := by
  by_cases h : c ∈ forbiddenChars
  · simp [sanitizeSpec, h]
  · simp [sanitizeSpec, h]

/-- Whenever `select_language` returns, the result is `en` or `es`. -/
theorem select_language_sound (inputs : List (List Char)) (r : List Char)
    (h : select_language inputs = some r) : r = enCode ∨ r = esCode := by
  induction inputs with
  | nil => simp [select_language] at h
  | cons i rest ih =>
    simp only [select_language] at h
    split at h
    · cases h; assumption
    · exact ih h

/-- If no stdin line lowercases to an accepted code, the loop never returns. -/
theorem select_language_rejects (inputs : List (List Char))
    (h : ∀ i ∈ inputs, ¬ (i.map Char.toLower = enCode ∨ i.map Char.toLower = esCode)) :
    select_language inputs = none := by
  induction inputs with
  | nil => rfl
  | cons i rest ih =>
    simp only [select_language]
    rw [if_neg (h i (by simp))]
    exact ih (fun j hj => h j (by simp [hj]))

/-- Once the extension dispatch has been passed, no later step reports an
unsupported extension. -/
theorem runPipeline_ne_unsupported (w : World) (p lang : List Char) :
    (runPipeline w p lang).outcome ≠ .unsupportedExtension := by
  unfold runPipeline
  repeat' split
  all_goals simp

/-- A `True` return from `generate_audiobook` means some attempt streamed
the body, so the output file was created. -/
theorem generate_audiobook_ok_writes (script voice : List Char)
    (p f : AttemptOutcome)
    (h : (generate_audiobook script voice p f).ok = true) :
    (generate_audiobook script voice p f).fileState ≠ .untouched := by
  cases p <;> cases f <;> simp_all [generate_audiobook, attemptFile]

/-! ## Claims -/

/-- C5: for every input title string, `safe_title` replaces each occurrence
of each character of the forbidden set `/ \ : * ? " < > |` with an
underscore (and keeps every other character), and it is idempotent:
applying it to an already-sanitized string returns it unchanged. -/
theorem C5_safe_title_sanitizes_and_idempotent (s : List Char) :
    safe_title s = s.map sanitizeSpec ∧ safe_title (safe_title s) = safe_title s := by
  have h1 := safe_title_eq_map s
  refine ⟨h1, ?_⟩
  rw [safe_title_eq_map (safe_title s), h1, List.map_map]
  exact List.map_congr_left (fun c _ => sanitizeSpec_idem c)

/-- Evaluation of C5 at a concrete title. -/
theorem C5_witness :
    safe_title (['a','/','b']) = List.map sanitizeSpec (['a','/','b']) :=
  (C5_safe_title_sanitizes_and_idempotent (['a','/','b'])).1

/-- C6: `select_language` only ever returns `en` or `es` and never returns
on a stream with no accepted code, and `get_voice` maps `es` to the fixed
voice `ef_dora` and every other language value to the distinct fixed voice
`af_heart`. -/
theorem C6_language_selection_and_voice :
    (∀ inputs r, select_language inputs = some r → r = enCode ∨ r = esCode) ∧
    (∀ inputs, (∀ i ∈ inputs,
        ¬ (i.map Char.toLower = enCode ∨ i.map Char.toLower = esCode)) →
      select_language inputs = none) ∧
    get_voice esCode = voiceEs ∧
    (∀ l, l ≠ esCode → get_voice l = voiceDefault) ∧
    voiceEs ≠ voiceDefault := by
  refine ⟨select_language_sound, select_language_rejects, rfl, ?_, by decide⟩
  intro l hl
  simp [get_voice, hl]

/-- Evaluation of C6 at concrete inputs: `es` is accepted, `fr` is refused
by the loop and mapped to the default voice by `get_voice`. -/
theorem C6_witness :
    (esCode = enCode ∨ esCode = esCode) ∧
    select_language [['f','r']] = none ∧
    get_voice (['f','r']) = voiceDefault :=
  ⟨C6_language_selection_and_voice.1 [esCode] esCode (by decide),
   C6_language_selection_and_voice.2.1 [['f','r']] (by decide),
   C6_language_selection_and_voice.2.2.2.1 (['f','r']) (by decide)⟩

/-- C10: `select_language` lowercases the input line before validating, so
any case variant of `en`/`es` is accepted immediately and the returned
value is the lowercase form; and every value it ever returns is exactly
`en` or `es`. -/
theorem C10_select_language_lowercases :
    (∀ s rest, (s.map Char.toLower = enCode ∨ s.map Char.toLower = esCode) →
      select_language (s :: rest) = some (s.map Char.toLower)) ∧
    (∀ inputs r, select_language inputs = some r → r = enCode ∨ r = esCode) := by
  constructor
  · intro s rest h
    rcases h with h | h <;> simp [select_language, h]
  · exact select_language_sound

/-- Evaluation of C10: the uppercase variant `EN` is accepted and returns
lowercase `en`. -/
theorem C10_witness :
    select_language [['E','N']] = some enCode := by
  have h := C10_select_language_lowercases.1 (['E','N']) [] (by decide)
  rw [h]
  decide

/-- C3: the fallback server is attempted if and only if the primary
attempt raises a request-level error (including a non-success status and a
mid-stream error); the fallback request is the identical request (same
path, headers and payload) against the fallback address; the two addresses
are distinct and each is attempted exactly once (the request list is
exactly `[primary]` on success and `[primary, fallback]` on failure). -/
theorem C3_fallback_iff_primary_failure (script voice : List Char)
    (p f : AttemptOutcome) :
    ((generate_audiobook script voice p f).requests.length = 2 ↔ p.isFailure = true) ∧
    (p.isFailure = true → (generate_audiobook script voice p f).requests =
      [ttsRequest PRIMARY_SERVER script voice, ttsRequest FALLBACK_SERVER script voice]) ∧
    (p.isFailure = false → (generate_audiobook script voice p f).requests =
      [ttsRequest PRIMARY_SERVER script voice]) ∧
    (∀ q ∈ (generate_audiobook script voice p f).requests,
      q.path = speechPath ∧ q.headers = tts_headers ∧
        q.payload = tts_payload script voice) ∧
    PRIMARY_SERVER ≠ FALLBACK_SERVER := by
  cases p <;> cases f <;>
    simp [generate_audiobook, AttemptOutcome.isFailure, ttsRequest] <;> decide

/-- Evaluation of C3: a primary connection error followed by a fallback
non-success status produces exactly the two identical requests. -/
theorem C3_witness :
    (generate_audiobook ['h','i'] voiceDefault .requestError .httpError).requests =
      [ttsRequest PRIMARY_SERVER ['h','i'] voiceDefault,
       ttsRequest FALLBACK_SERVER ['h','i'] voiceDefault] :=
  (C3_fallback_iff_primary_failure ['h','i'] voiceDefault .requestError .httpError).2.1 rfl

/-- C2 as stated is false: when the primary attempt fails mid-stream (a
`RequestException` raised by `iter_content` after the file was opened and
chunks written) and the fallback fails with a connection error, both
attempts fail and the function returns `False`, yet a partial file remains
at `output_path`. -/
theorem C2_counterexample :
    (AttemptOutcome.midStreamError [['a','b']]).isFailure = true ∧
    AttemptOutcome.requestError.isFailure = true ∧
    (generate_audiobook ['h','i'] voiceDefault
      (.midStreamError [['a','b']]) .requestError).ok = false ∧
    (generate_audiobook ['h','i'] voiceDefault
      (.midStreamError [['a','b']]) .requestError).fileState =
      .incomplete ['a','b'] ∧
    FileState.incomplete ['a','b'] ≠ FileState.untouched :=
  ⟨rfl, rfl, rfl, rfl, by decide⟩

/-- C2 amended: when both TTS attempts fail, `generate_audiobook` returns a
falsy result; and if both failures happen before any response body is
consumed (a request error or a non-success status, not a mid-stream
error), the file at `output_path` is untouched. -/
theorem C2_amended_both_fail (script voice : List Char) (p f : AttemptOutcome)
    (hp : p.isFailure = true) (hf : f.isFailure = true) :
    (generate_audiobook script voice p f).ok = false ∧
    (p.failsBeforeBody = true → f.failsBeforeBody = true →
      (generate_audiobook script voice p f).fileState = .untouched) := by
  cases p <;> cases f <;>
    simp_all [generate_audiobook, AttemptOutcome.isFailure,
      AttemptOutcome.failsBeforeBody, attemptFile]

/-- C4: after argparse and the existence check, `main` proceeds past the
extension dispatch exactly when the lowercased `splitext` extension is
`.pdf` or `.txt`; for every other extension it stops with the unsupported
extension error and exit code 1. -/
theorem C4_extension_dispatch (p : List Char) (l : Option (List Char))
    (w : World) (hl : validLangArg l = true) (he : w.exists_file p = true) :
    ((main p l w).outcome ≠ .unsupportedExtension ↔
      (file_extension p = pdfExt ∨ file_extension p = txtExt)) ∧
    (¬ (file_extension p = pdfExt ∨ file_extension p = txtExt) →
      (main p l w).outcome = .unsupportedExtension ∧
      exitCode (main p l w).outcome = some 1) := by
  by_cases hd : file_extension p = pdfExt ∨ file_extension p = txtExt
  · refine ⟨⟨fun _ => hd, fun _ => ?_⟩, fun h => absurd hd h⟩
    cases hres : resolveLang l w.stdin with
    | none => simp [main, hl, he, hd, hres]
    | some lang =>
      have hm : main p l w = runPipeline w p lang := by
        simp [main, hl, he, hd, hres]
      rw [hm]
      exact runPipeline_ne_unsupported w p lang
  · have hmain : (main p l w).outcome = .unsupportedExtension := by
      simp [main, hl, he, hd]
    exact ⟨⟨fun hne => absurd hmain hne, fun hdd => absurd hdd hd⟩,
      fun _ => ⟨hmain, by rw [hmain]; rfl⟩⟩

/-- Evaluation of C4: a `.md` file is rejected with exit code 1. -/
theorem C4_witness :
    (main (['a','.','m','d']) none bothDownWorld).outcome = .unsupportedExtension ∧
    exitCode (main (['a','.','m','d']) none bothDownWorld).outcome = some 1 :=
  (C4_extension_dispatch (['a','.','m','d']) none bothDownWorld rfl rfl).2 (by decide)

/-- C8: a `.txt` input whose content is the empty string makes `main` stop
with the no-script error and exit code 1, and `generate_audiobook` is
never invoked. -/
theorem C8_empty_txt_exits (p : List Char) (l : Option (List Char)) (w : World)
    (lang : List Char) (hl : validLangArg l = true)
    (he : w.exists_file p = true) (hres : resolveLang l w.stdin = some lang)
    (hext : file_extension p = txtExt) (hread : w.read_file p = some []) :
    (main p l w).outcome = .emptyScript ∧
    exitCode (main p l w).outcome = some 1 ∧
    (main p l w).outcome.ttsInvoked = false := by
  have hd : file_extension p = pdfExt ∨ file_extension p = txtExt := Or.inr hext
  have hm : main p l w = runPipeline w p lang := by
    simp [main, hl, he, hres, hd]
  have hout : (main p l w).outcome = .emptyScript := by
    rw [hm]
    simp [runPipeline, hread, hext, (by decide : ¬ (txtExt = pdfExt))]
  exact ⟨hout, by rw [hout]; rfl, by rw [hout]; rfl⟩

/-- Evaluation of C8 on a world where the text file reads as empty. -/
theorem C8_witness :
    (main (['a','.','t','x','t']) (some enCode) emptyTxtWorld).outcome = .emptyScript ∧
    exitCode (main (['a','.','t','x','t']) (some enCode) emptyTxtWorld).outcome = some 1 ∧
    (main (['a','.','t','x','t']) (some enCode) emptyTxtWorld).outcome.ttsInvoked = false :=
  C8_empty_txt_exits (['a','.','t','x','t']) (some enCode) emptyTxtWorld enCode
    rfl rfl rfl (by decide) rfl

/-- C9: an input whose base name is exactly `.pdf` or `.txt` has an empty
`splitext` extension and is rejected as unsupported with exit code 1. -/
theorem C9_dotfile_rejected (p : List Char) (l : Option (List Char))
    (w : World) (hl : validLangArg l = true) (he : w.exists_file p = true)
    (hb : basename p = ['.','p','d','f'] ∨ basename p = ['.','t','x','t']) :
    (splitext p).2 = [] ∧
    (main p l w).outcome = .unsupportedExtension ∧
    exitCode (main p l w).outcome = some 1 := by
  have hext : (splitext p).2 = [] := by
    have h2 : (splitext p).2 = (splitextBase (basename p)).2 := rfl
    rcases hb with h | h <;> rw [h2, h] <;> rfl
  have hfe : file_extension p = [] := by
    rw [file_extension, hext]; rfl
  have hmain : (main p l w).outcome = .unsupportedExtension := by
    simp [main, hl, he, hfe, pdfExt, txtExt]
  exact ⟨hext, hmain, by rw [hmain]; rfl⟩

/-- Evaluation of C9 at the dot-file path `dir/.pdf`. -/
theorem C9_witness :
    (splitext (['d','i','r','/','.','p','d','f'])).2 = [] ∧
    (main (['d','i','r','/','.','p','d','f']) none bothDownWorld).outcome =
      .unsupportedExtension ∧
    exitCode (main (['d','i','r','/','.','p','d','f']) none bothDownWorld).outcome =
      some 1 :=
  C9_dotfile_rejected (['d','i','r','/','.','p','d','f']) none bothDownWorld
    rfl rfl (Or.inl (by decide))

/-- C1 against the source: with a readable non-empty `.txt` input and both
TTS servers raising connection errors, `generate_audiobook` returns
`False`, but `main` never inspects that value and the process terminates
with exit code 0, not 1. -/
theorem C1_both_tts_fail_exit_code_zero :
    bothDownWorld.tts_primary.isFailure = true ∧
    bothDownWorld.tts_fallback.isFailure = true ∧
    (main (['a','.','t','x','t']) (some enCode) bothDownWorld).outcome.ttsOk =
      some false ∧
    exitCode (main (['a','.','t','x','t']) (some enCode) bothDownWorld).outcome =
      some 0 :=
  ⟨rfl, rfl, rfl, rfl⟩

/-- C7: in every run of `main` that completes with a successful TTS call,
the last file written is the final audio file, named after the input
file's base name with a `.mp3` extension; on the PDF path the writes are
exactly the raw-text file, the processed-script file and the mp3, and on
the non-PDF (`.txt`) path exactly the mp3 — in particular the
processed-script file is written only on the PDF path. -/
theorem C7_output_files (p : List Char) (l : Option (List Char)) (w : World)
    (r : TTSResult) (hl : validLangArg l = true)
    (hc : (main p l w).outcome = .completed r) (hok : r.ok = true) :
    (main p l w).writes.getLast? =
      some ((splitext (basename p)).1 ++ ['.','m','p','3']) ∧
    (file_extension p = pdfExt → (main p l w).writes =
      [(splitext (basename p)).1 ++ ['.','r','a','w','.','t','x','t'],
       (splitext (basename p)).1 ++
         ['.','p','r','o','c','e','s','s','e','d','.','t','x','t'],
       (splitext (basename p)).1 ++ ['.','m','p','3']]) ∧
    (file_extension p ≠ pdfExt → (main p l w).writes =
      [(splitext (basename p)).1 ++ ['.','m','p','3']]) ∧
    ((splitext (basename p)).1 ++ ['.','p','r','o','c','e','s','s','e','d','.','t','x','t']
        ∈ (main p l w).writes → file_extension p = pdfExt) := by
  by_cases he : w.exists_file p = true
  case neg =>
    rw [Bool.not_eq_true] at he
    have : (main p l w).outcome = .fileNotFound := by simp [main, hl, he]
    rw [this] at hc
    cases hc
  by_cases hd : file_extension p = pdfExt ∨ file_extension p = txtExt
  case neg =>
    have : (main p l w).outcome = .unsupportedExtension := by simp [main, hl, he, hd]
    rw [this] at hc
    cases hc
  cases hres : resolveLang l w.stdin with
  | none =>
    have : (main p l w).outcome = .divergesPrompt := by simp [main, hl, he, hd, hres]
    rw [this] at hc
    cases hc
  | some lang =>
    have hm : main p l w = runPipeline w p lang := by simp [main, hl, he, hd, hres]
    rw [hm] at hc ⊢
    rcases hd with hpdf | htxt
    · -- PDF path
      cases hpt : w.pdftotext with
      | toolNotFound => simp [runPipeline, hpdf, hpt] at hc
      | processError => simp [runPipeline, hpdf, hpt] at hc
      | ok =>
        cases hg : format_text_with_gemini w.gemini_api_key
            (some w.pdftotext_output) w.gemini with
        | none => simp [runPipeline, hpdf, hpt, hg] at hc
        | some script =>
          have hr : generate_audiobook script (get_voice lang)
              w.tts_primary w.tts_fallback = r := by
            simpa [runPipeline, hpdf, hpt, hg] using hc
          have hfs : ¬ ((generate_audiobook script (get_voice lang)
              w.tts_primary w.tts_fallback).fileState = .untouched) :=
            generate_audiobook_ok_writes _ _ _ _ (hr ▸ hok)
          have hws : (runPipeline w p lang).writes =
              [(splitext (basename p)).1 ++ ['.','r','a','w','.','t','x','t'],
               (splitext (basename p)).1 ++
                 ['.','p','r','o','c','e','s','s','e','d','.','t','x','t'],
               (splitext (basename p)).1 ++ ['.','m','p','3']] := by
            simp [runPipeline, hpdf, hpt, hg, hfs]
          rw [hws]
          exact ⟨rfl, fun _ => rfl, fun hne => absurd hpdf hne, fun _ => hpdf⟩
    · -- TXT path
      have hnp : ¬ (file_extension p = pdfExt) := by rw [htxt]; decide
      cases hrd : w.read_file p with
      | none => simp [runPipeline, hnp, hrd] at hc
      | some content =>
        by_cases hcz : content = []
        · simp [runPipeline, hnp, hrd, hcz] at hc
        · have hr : generate_audiobook content (get_voice lang)
              w.tts_primary w.tts_fallback = r := by
            simpa [runPipeline, hnp, hrd, hcz] using hc
          have hfs : ¬ ((generate_audiobook content (get_voice lang)
              w.tts_primary w.tts_fallback).fileState = .untouched) :=
            generate_audiobook_ok_writes _ _ _ _ (hr ▸ hok)
          have hws : (runPipeline w p lang).writes =
              [(splitext (basename p)).1 ++ ['.','m','p','3']] := by
            simp [runPipeline, hnp, hrd, hcz, hfs]
          rw [hws]
          refine ⟨rfl, fun hp' => absurd hp' hnp, fun _ => rfl, fun hmem => ?_⟩
          have heq := List.mem_singleton.mp hmem
          have := List.append_cancel_left heq
          exact absurd this (by decide)

/-- Evaluation of C7 on a successful PDF run: the three expected files are
written, ending with the mp3. -/
theorem C7_witness :
    (main (['b','.','p','d','f']) (some enCode) pdfOkWorld).writes =
      [['b','.','r','a','w','.','t','x','t'],
       ['b','.','p','r','o','c','e','s','s','e','d','.','t','x','t'],
       ['b','.','m','p','3']] := by
  have h := (C7_output_files (['b','.','p','d','f']) (some enCode) pdfOkWorld
      (generate_audiobook ['h','i'] voiceDefault
        (.success [['o','k']]) (.success [['o','k']]))
      rfl rfl rfl).2.1 (by decide)
  exact h.trans (by decide)

/-- Evaluation of the amended C2: two pre-body failures leave the file
untouched and the result falsy. -/
theorem C2_amended_witness :
    (generate_audiobook ['h','i'] voiceDefault .requestError .httpError).ok = false ∧
    (generate_audiobook ['h','i'] voiceDefault .requestError .httpError).fileState =
      .untouched :=
  ⟨(C2_amended_both_fail ['h','i'] voiceDefault .requestError .httpError rfl rfl).1,
   (C2_amended_both_fail ['h','i'] voiceDefault .requestError .httpError rfl rfl).2 rfl rfl⟩

end CliTools
